import Mathlib

/-!
Verification of the financial-statement normalization and ratio-computation
engine (src/backend/app/calculator.py, class FinancialRatioCalculator).

The engine is embedded shallowly: raw line-item records become an inductive
value type, the pandas DataFrame produced by extract_financial_data becomes a
list of rows with rational amount fields, and each calculator method becomes a
total Lean function mirroring the source line by line.  Amounts are modelled
as rationals; round(x, 2) becomes rounding of 100*x to the nearest integer.
-/

namespace DartCalc

/-- A raw amount field as received from upstream: a string (possibly with
thousands separators), an already-numeric value, an explicit null, or a field
absent from the record (pandas fills the whole column with None). -/
inductive RawVal where
  | str (s : String)
  | num (q : ℚ)
  | null
  | absent
deriving DecidableEq

/-- One raw line-item record handed to extract_financial_data. -/
structure RawLineItem where
  account_id : Option String
  thstrm_amount : RawVal
  frmtrm_amount : RawVal
  bfefrmtrm_amount : RawVal
deriving DecidableEq

/-- Interpret a character list as a base-10 natural number, most significant
digit first; fails on any non-digit character. -/
def digitsVal (cs : List Char) : Option ℕ :=
  cs.foldlM (fun acc c => if c.isDigit then some (acc * 10 + (c.toNat - 48)) else none) 0

/-- Parse an unsigned decimal literal (integer part, optional dot, optional
fractional part); fails when malformed or empty. -/
def parseUnsigned (cs : List Char) : Option ℚ :=
  let ip := cs.takeWhile (fun c => c != '.')
  let rest := cs.dropWhile (fun c => c != '.')
  match rest with
  | [] =>
    if ip.isEmpty then none
    else (digitsVal ip).map (fun n => (n : ℚ))
  | _ :: frac =>
    if ip.isEmpty && frac.isEmpty then none
    else do
      let n ← digitsVal ip
      let f ← digitsVal frac
      pure ((n : ℚ) + (f : ℚ) / (10 : ℚ) ^ frac.length)

/-- Parse a decimal literal with an optional sign, as pd.to_numeric does on
the plain decimal strings the engine receives; none on malformed input. -/
def parseAmount (s : String) : Option ℚ :=
  match s.toList with
  | '-' :: r => (parseUnsigned r).map (fun q => -q)
  | '+' :: r => parseUnsigned r
  | r => parseUnsigned r

/-- Remove every comma, as str.replace applied to the amount columns. -/
def stripCommas (s : String) : String :=
  ⟨s.toList.filter (fun c => c != ',')⟩

/-- Coercion of one amount field in extract_financial_data: strings are
comma-stripped and parsed with failures coerced to 0, null and absent fields
become 0, numeric values pass through. -/
def coerce_amount : RawVal → ℚ
  | .str s => (parseAmount (stripCommas s)).getD 0
  | .num q => q
  | .null => 0
  | .absent => 0

/-- One row of the canonical table: account id plus the three numeric period
columns produced by extract_financial_data. -/
structure Row where
  account_id : Option String
  thstrm_amount : ℚ
  frmtrm_amount : ℚ
  bfefrmtrm_amount : ℚ
deriving DecidableEq

/-- Coerce one raw record to a canonical row. -/
def coerceRow (it : RawLineItem) : Row :=
  { account_id := it.account_id
    thstrm_amount := coerce_amount it.thstrm_amount
    frmtrm_amount := coerce_amount it.frmtrm_amount
    bfefrmtrm_amount := coerce_amount it.bfefrmtrm_amount }

/-- extract_financial_data: empty input short-circuits to the empty frame
before any table is built; otherwise every record is coerced, in order. -/
def extract_financial_data (statements : List RawLineItem) : List Row :=
  match statements with
  | [] => []
  | _ => statements.map coerceRow

/-- The period column selected by get_account_value. -/
inductive Period where
  | thstrm
  | frmtrm
  | bfefrmtrm
deriving DecidableEq

/-- Project the selected period column out of a row. -/
def Row.getPeriod (r : Row) : Period → ℚ
  | .thstrm => r.thstrm_amount
  | .frmtrm => r.frmtrm_amount
  | .bfefrmtrm => r.bfefrmtrm_amount

/-- Python str.strip as applied by the resolver mask: drop leading and
trailing whitespace (written structurally so that proofs can evaluate it). -/
def pyStrip (s : String) : String :=
  ⟨((s.toList.dropWhile Char.isWhitespace).reverse.dropWhile Char.isWhitespace).reverse⟩

/-- The row mask of get_account_value: the row account id stripped of
surrounding whitespace equals the candidate id; a missing id never matches. -/
def accountMatches (account_id : String) (r : Row) : Bool :=
  match r.account_id with
  | some s => pyStrip s == account_id
  | none => false

/-- get_account_value: walk the candidate ids in priority order; for the
first id whose mask hits, return the selected period amount of the first
masked row; 0.0 when no candidate matches or the id list is empty.  This is
a totalization: on the column-less frame built from an empty record list
(modelled as the empty row list) with a nonempty id list, the source raises
KeyError at the df column access instead of returning anything; that raising
behaviour is carried by get_account_valueE below, and the 0 returned here at
that corner is a modelling default, not program behaviour. -/
def get_account_value : List Row → List String → Period → ℚ
  | _, [], _ => 0
  | df, account_id :: rest, p =>
    match (df.filter (accountMatches account_id)).head? with
    | some r => r.getPeriod p
    | none => get_account_value df rest p

/-- round(x, 2) of the source: round 100*x to the nearest integer. -/
def round2 (q : ℚ) : ℚ := (round (q * 100) : ℤ) / 100

/-- The account_mapping dict literal of FinancialRatioCalculator, in its
source order: canonical metric name to ordered alias list. -/
def account_mapping : List (String × List String) :=
  [("current_assets", ["ifrs-full_CurrentAssets", "ifrs_CurrentAssets"]),
   ("total_assets", ["ifrs-full_Assets", "ifrs_Assets"]),
   ("current_liabilities", ["ifrs-full_CurrentLiabilities", "ifrs_CurrentLiabilities"]),
   ("total_liabilities", ["ifrs-full_Liabilities", "ifrs_Liabilities"]),
   ("total_equity", ["ifrs-full_Equity", "ifrs_Equity"]),
   ("revenue", ["ifrs-full_Revenue", "ifrs_Revenue"]),
   ("cost_of_sales", ["ifrs-full_CostOfSales", "ifrs_CostOfSales"]),
   ("gross_profit", ["ifrs-full_GrossProfit", "ifrs_GrossProfit"]),
   ("operating_profit", ["dart_OperatingIncomeLoss", "ifrs-full_OperatingIncomeLoss", "ifrs_OperatingIncomeLoss"]),
   ("net_income", ["ifrs-full_ProfitLoss", "ifrs_ProfitLoss", "ifrs-full_ProfitLossAttributableToOwnersOfParent"]),
   ("operating_cash_flow", ["ifrs-full_CashFlowsFromUsedInOperatingActivities", "ifrs_CashFlowsFromUsedInOperatingActivities"]),
   ("investing_cash_flow", ["ifrs-full_CashFlowsFromUsedInInvestingActivities", "ifrs_CashFlowsFromUsedInInvestingActivities"]),
   ("financing_cash_flow", ["ifrs-full_CashFlowsFromUsedInFinancingActivities", "ifrs_CashFlowsFromUsedInFinancingActivities"])]

/-- Dict access self.account_mapping[name] as performed by the ratio
functions; every call site below uses a key present in the mapping, where
indexing and lookup-with-default agree. -/
def aliasesOf (name : String) : List String :=
  (account_mapping.lookup name).getD []

/-- Modelled from the spec: the Account Alias Registry operation
resolve_aliases, for which src holds only the account_mapping dict literal in
FinancialRatioCalculator (no lookup function handling an unrecognized
canonical name is present in src); per the spec it returns the ordered alias
list, and the empty list for an unrecognized canonical name. -/
def resolve_aliases (canonical_name : String) : List String :=
  (account_mapping.lookup canonical_name).getD []

/-- calculate_stability_ratios, keys in insertion order. -/
def calculate_stability_ratios (df : List Row) : List (String × ℚ) :=
  let current_assets := get_account_value df (aliasesOf "current_assets") Period.thstrm
  let current_liabilities := get_account_value df (aliasesOf "current_liabilities") Period.thstrm
  let total_assets := get_account_value df (aliasesOf "total_assets") Period.thstrm
  let total_liabilities := get_account_value df (aliasesOf "total_liabilities") Period.thstrm
  let total_equity := get_account_value df (aliasesOf "total_equity") Period.thstrm
  [("current_ratio", if current_liabilities > 0 then round2 (current_assets / current_liabilities * 100) else 0),
   ("debt_to_equity", if total_equity > 0 then round2 (total_liabilities / total_equity * 100) else 0),
   ("equity_ratio", if total_assets > 0 then round2 (total_equity / total_assets * 100) else 0)]

/-- calculate_profitability_ratios, keys in insertion order. -/
def calculate_profitability_ratios (df : List Row) : List (String × ℚ) :=
  let revenue := get_account_value df (aliasesOf "revenue") Period.thstrm
  let gross_profit := get_account_value df (aliasesOf "gross_profit") Period.thstrm
  let operating_profit := get_account_value df (aliasesOf "operating_profit") Period.thstrm
  let net_income := get_account_value df (aliasesOf "net_income") Period.thstrm
  let total_assets := get_account_value df (aliasesOf "total_assets") Period.thstrm
  let total_equity := get_account_value df (aliasesOf "total_equity") Period.thstrm
  [("gross_margin", if revenue > 0 then round2 (gross_profit / revenue * 100) else 0),
   ("operating_margin", if revenue > 0 then round2 (operating_profit / revenue * 100) else 0),
   ("net_margin", if revenue > 0 then round2 (net_income / revenue * 100) else 0),
   ("roa", if total_assets > 0 then round2 (net_income / total_assets * 100) else 0),
   ("roe", if total_equity > 0 then round2 (net_income / total_equity * 100) else 0)]

/-- calculate_activity_ratios: asset turnover, not scaled by 100. -/
def calculate_activity_ratios (df : List Row) : List (String × ℚ) :=
  let revenue := get_account_value df (aliasesOf "revenue") Period.thstrm
  let total_assets := get_account_value df (aliasesOf "total_assets") Period.thstrm
  [("asset_turnover", if total_assets > 0 then round2 (revenue / total_assets) else 0)]

/-- calculate_growth_rates over two canonical tables (current and prior). -/
def calculate_growth_rates (df_current df_previous : List Row) : List (String × ℚ) :=
  let revenue_current := get_account_value df_current (aliasesOf "revenue") Period.thstrm
  let net_income_current := get_account_value df_current (aliasesOf "net_income") Period.thstrm
  let total_assets_current := get_account_value df_current (aliasesOf "total_assets") Period.thstrm
  let revenue_previous := get_account_value df_previous (aliasesOf "revenue") Period.thstrm
  let net_income_previous := get_account_value df_previous (aliasesOf "net_income") Period.thstrm
  let total_assets_previous := get_account_value df_previous (aliasesOf "total_assets") Period.thstrm
  [("revenue_growth", if revenue_previous > 0 then round2 ((revenue_current - revenue_previous) / revenue_previous * 100) else 0),
   ("net_income_growth", if net_income_previous > 0 then round2 ((net_income_current - net_income_previous) / net_income_previous * 100) else 0),
   ("asset_growth", if total_assets_previous > 0 then round2 ((total_assets_current - total_assets_previous) / total_assets_previous * 100) else 0)]

/-- The three ratio groups returned by calculate_all_ratios. -/
structure AllRatios where
  stability : List (String × ℚ)
  profitability : List (String × ℚ)
  activity : List (String × ℚ)
deriving DecidableEq

/-- calculate_all_ratios: extract, then all-empty groups on an empty frame,
else the three computed groups. -/
def calculate_all_ratios (statements : List RawLineItem) : AllRatios :=
  let df := extract_financial_data statements
  if df.isEmpty then
    { stability := [], profitability := [], activity := [] }
  else
    { stability := calculate_stability_ratios df
      profitability := calculate_profitability_ratios df
      activity := calculate_activity_ratios df }

/-- One entry of the companies_data mapping given to create_comparison_table;
each field is optional because the source reads it with dict get defaults. -/
structure CompanyData where
  statements : Option (List RawLineItem)
  company_name : Option String
  year : Option String
deriving DecidableEq

/-- One output row of create_comparison_table, its fixed column set in
source order. -/
structure ComparisonRow where
  company_name : String
  year : String
  current_ratio : ℚ
  debt_to_equity : ℚ
  equity_ratio : ℚ
  roe : ℚ
  roa : ℚ
  operating_margin : ℚ
  net_margin : ℚ
  asset_turnover : ℚ
deriving DecidableEq

/-- Python dict get with a default, over association-list ratio groups. -/
def dictGet (g : List (String × ℚ)) (k : String) (d : ℚ) : ℚ :=
  (g.lookup k).getD d

/-- The row built for one entity inside the create_comparison_table loop. -/
def comparison_row (data : CompanyData) : ComparisonRow :=
  let statements := data.statements.getD []
  let ratios := calculate_all_ratios statements
  { company_name := data.company_name.getD ""
    year := data.year.getD ""
    current_ratio := dictGet ratios.stability "current_ratio" 0
    debt_to_equity := dictGet ratios.stability "debt_to_equity" 0
    equity_ratio := dictGet ratios.stability "equity_ratio" 0
    roe := dictGet ratios.profitability "roe" 0
    roa := dictGet ratios.profitability "roa" 0
    operating_margin := dictGet ratios.profitability "operating_margin" 0
    net_margin := dictGet ratios.profitability "net_margin" 0
    asset_turnover := dictGet ratios.activity "asset_turnover" 0 }

/-- create_comparison_table: one row per entity entry, in mapping iteration
order (insertion order of the association list). -/
def create_comparison_table (companies_data : List (String × CompanyData)) : List ComparisonRow :=
  companies_data.map (fun kv => comparison_row kv.2)

/-!
Exception-instrumented variants.  The source has two fallible access points
inside get_account_value.  First, each loop iteration selects the column
df['account_id']: extract_financial_data of an empty record list returns a
column-less pd.DataFrame(), so that selection raises KeyError there (in this
model, the empty row list stands for the column-less frame).  Second,
df.loc[mask, period].iloc[0] raises when the masked frame is empty, but is
only reached after the mask.any() guard.  The variants below return Except
and raise exactly where the Python does.  calculate_all_ratios is protected
by its df.empty guard; calculate_growth_rates has no such guard and really
does raise on a table built from an empty line-item list.
-/

/-- df.loc[mask, period].iloc[0]: positional access to the first masked row,
raising when the mask selected nothing. -/
def ilocFirst (l : List Row) : Except String Row :=
  match l.head? with
  | some r => Except.ok r
  | none => Except.error "single positional indexer is out-of-bounds"

/-- get_account_value with both fallible accesses kept: the df column
selection raises KeyError on the column-less empty frame as soon as a first
candidate id is processed, and the iloc access stays guarded by mask.any()
exactly as in the source. -/
def get_account_valueE : List Row → List String → Period → Except String ℚ
  | _, [], _ => Except.ok 0
  | df, account_id :: rest, p =>
    if df.isEmpty then
      Except.error "KeyError: 'account_id'"
    else if df.any (accountMatches account_id) then
      (ilocFirst (df.filter (accountMatches account_id))).map (fun r => r.getPeriod p)
    else
      get_account_valueE df rest p

/-- calculate_stability_ratios over the fallible resolver. -/
def calculate_stability_ratiosE (df : List Row) : Except String (List (String × ℚ)) := do
  let current_assets ← get_account_valueE df (aliasesOf "current_assets") Period.thstrm
  let current_liabilities ← get_account_valueE df (aliasesOf "current_liabilities") Period.thstrm
  let total_assets ← get_account_valueE df (aliasesOf "total_assets") Period.thstrm
  let total_liabilities ← get_account_valueE df (aliasesOf "total_liabilities") Period.thstrm
  let total_equity ← get_account_valueE df (aliasesOf "total_equity") Period.thstrm
  pure [("current_ratio", if current_liabilities > 0 then round2 (current_assets / current_liabilities * 100) else 0),
        ("debt_to_equity", if total_equity > 0 then round2 (total_liabilities / total_equity * 100) else 0),
        ("equity_ratio", if total_assets > 0 then round2 (total_equity / total_assets * 100) else 0)]

/-- calculate_profitability_ratios over the fallible resolver. -/
def calculate_profitability_ratiosE (df : List Row) : Except String (List (String × ℚ)) := do
  let revenue ← get_account_valueE df (aliasesOf "revenue") Period.thstrm
  let gross_profit ← get_account_valueE df (aliasesOf "gross_profit") Period.thstrm
  let operating_profit ← get_account_valueE df (aliasesOf "operating_profit") Period.thstrm
  let net_income ← get_account_valueE df (aliasesOf "net_income") Period.thstrm
  let total_assets ← get_account_valueE df (aliasesOf "total_assets") Period.thstrm
  let total_equity ← get_account_valueE df (aliasesOf "total_equity") Period.thstrm
  pure [("gross_margin", if revenue > 0 then round2 (gross_profit / revenue * 100) else 0),
        ("operating_margin", if revenue > 0 then round2 (operating_profit / revenue * 100) else 0),
        ("net_margin", if revenue > 0 then round2 (net_income / revenue * 100) else 0),
        ("roa", if total_assets > 0 then round2 (net_income / total_assets * 100) else 0),
        ("roe", if total_equity > 0 then round2 (net_income / total_equity * 100) else 0)]

/-- calculate_activity_ratios over the fallible resolver. -/
def calculate_activity_ratiosE (df : List Row) : Except String (List (String × ℚ)) := do
  let revenue ← get_account_valueE df (aliasesOf "revenue") Period.thstrm
  let total_assets ← get_account_valueE df (aliasesOf "total_assets") Period.thstrm
  pure [("asset_turnover", if total_assets > 0 then round2 (revenue / total_assets) else 0)]

/-- calculate_growth_rates over the fallible resolver. -/
def calculate_growth_ratesE (df_current df_previous : List Row) : Except String (List (String × ℚ)) := do
  let revenue_current ← get_account_valueE df_current (aliasesOf "revenue") Period.thstrm
  let net_income_current ← get_account_valueE df_current (aliasesOf "net_income") Period.thstrm
  let total_assets_current ← get_account_valueE df_current (aliasesOf "total_assets") Period.thstrm
  let revenue_previous ← get_account_valueE df_previous (aliasesOf "revenue") Period.thstrm
  let net_income_previous ← get_account_valueE df_previous (aliasesOf "net_income") Period.thstrm
  let total_assets_previous ← get_account_valueE df_previous (aliasesOf "total_assets") Period.thstrm
  pure [("revenue_growth", if revenue_previous > 0 then round2 ((revenue_current - revenue_previous) / revenue_previous * 100) else 0),
        ("net_income_growth", if net_income_previous > 0 then round2 ((net_income_current - net_income_previous) / net_income_previous * 100) else 0),
        ("asset_growth", if total_assets_previous > 0 then round2 ((total_assets_current - total_assets_previous) / total_assets_previous * 100) else 0)]

/-- calculate_all_ratios over the fallible resolver. -/
def calculate_all_ratiosE (statements : List RawLineItem) : Except String AllRatios := do
  let df := extract_financial_data statements
  if df.isEmpty then
    pure { stability := [], profitability := [], activity := [] }
  else
    let s ← calculate_stability_ratiosE df
    let p ← calculate_profitability_ratiosE df
    let a ← calculate_activity_ratiosE df
    pure { stability := s, profitability := p, activity := a }

/-- The comparison-loop body over the fallible pipeline. -/
def comparison_rowE (data : CompanyData) : Except String ComparisonRow := do
  let ratios ← calculate_all_ratiosE (data.statements.getD [])
  pure { company_name := data.company_name.getD ""
         year := data.year.getD ""
         current_ratio := dictGet ratios.stability "current_ratio" 0
         debt_to_equity := dictGet ratios.stability "debt_to_equity" 0
         equity_ratio := dictGet ratios.stability "equity_ratio" 0
         roe := dictGet ratios.profitability "roe" 0
         roa := dictGet ratios.profitability "roa" 0
         operating_margin := dictGet ratios.profitability "operating_margin" 0
         net_margin := dictGet ratios.profitability "net_margin" 0
         asset_turnover := dictGet ratios.activity "asset_turnover" 0 }

/-- create_comparison_table over the fallible pipeline, accumulating rows in
iteration order as the source loop does. -/
def create_comparison_tableE : List (String × CompanyData) → Except String (List ComparisonRow)
  | [] => Except.ok []
  | kv :: rest => do
    let row ← comparison_rowE kv.2
    let rows ← create_comparison_tableE rest
    pure (row :: rows)

/-!
Concrete fixtures for witnesses: the sample filing used by the repository's
own test suite, a zero-denominator filing, a duplicated account id, growth
tables with a non-positive prior period, and entity records missing keys.
-/

/-- Build a raw record with only a current-period amount, as in the tests. -/
def mkItem (id : String) (cur : RawVal) : RawLineItem :=
  { account_id := some id
    thstrm_amount := cur
    frmtrm_amount := RawVal.null
    bfefrmtrm_amount := RawVal.null }

/-- The sample statements of the repository's test suite, plus a gross-profit
line so every profitability input is present. -/
def sampleStatements : List RawLineItem :=
  [mkItem "ifrs-full_CurrentAssets" (RawVal.str "1,000,000"),
   mkItem "ifrs-full_Assets" (RawVal.str "2000000"),
   mkItem "ifrs-full_CurrentLiabilities" (RawVal.str "500000"),
   mkItem "ifrs-full_Liabilities" (RawVal.str "800000"),
   mkItem "ifrs-full_Equity" (RawVal.str "1200000"),
   mkItem "ifrs-full_Revenue" (RawVal.str "1500000"),
   mkItem "ifrs-full_GrossProfit" (RawVal.str "600000"),
   mkItem "dart_OperatingIncomeLoss" (RawVal.str "150000"),
   mkItem "ifrs-full_ProfitLoss" (RawVal.str "120000")]

/-- The canonical table of the sample statements. -/
def sampleTable : List Row := extract_financial_data sampleStatements

/-- A filing with zero current liabilities, revenue, equity and assets. -/
def zeroDenomTable : List Row :=
  [{ account_id := some "ifrs-full_CurrentAssets", thstrm_amount := 1000000, frmtrm_amount := 0, bfefrmtrm_amount := 0 },
   { account_id := some "ifrs-full_CurrentLiabilities", thstrm_amount := 0, frmtrm_amount := 0, bfefrmtrm_amount := 0 },
   { account_id := some "ifrs-full_Assets", thstrm_amount := 0, frmtrm_amount := 0, bfefrmtrm_amount := 0 },
   { account_id := some "ifrs-full_Equity", thstrm_amount := 0, frmtrm_amount := 0, bfefrmtrm_amount := 0 },
   { account_id := some "ifrs-full_Revenue", thstrm_amount := 0, frmtrm_amount := 0, bfefrmtrm_amount := 0 }]

/-- First of two rows sharing a trimmed account id; padded with whitespace to
exercise the strip. -/
def dupRowA : Row :=
  { account_id := some " ifrs-full_Assets ", thstrm_amount := 7, frmtrm_amount := 0, bfefrmtrm_amount := 0 }

/-- Second of two rows sharing an account id. -/
def dupRowB : Row :=
  { account_id := some "ifrs-full_Assets", thstrm_amount := 9, frmtrm_amount := 0, bfefrmtrm_amount := 0 }

/-- Current-period table for the growth witness. -/
def growthCurTable : List Row :=
  [{ account_id := some "ifrs-full_Revenue", thstrm_amount := 999, frmtrm_amount := 0, bfefrmtrm_amount := 0 },
   { account_id := some "ifrs-full_ProfitLoss", thstrm_amount := 1100, frmtrm_amount := 0, bfefrmtrm_amount := 0 }]

/-- Prior-period table for the growth witness: negative revenue, positive net
income, no assets row at all. -/
def growthPrevTable : List Row :=
  [{ account_id := some "ifrs-full_Revenue", thstrm_amount := -500, frmtrm_amount := 0, bfefrmtrm_amount := 0 },
   { account_id := some "ifrs-full_ProfitLoss", thstrm_amount := 1000, frmtrm_amount := 0, bfefrmtrm_amount := 0 }]

/-- Entity record missing every optional key. -/
def bareEntity : CompanyData :=
  { statements := none, company_name := none, year := none }

/-- Entity record with empty statements but named. -/
def namedEntity : CompanyData :=
  { statements := some [], company_name := some "A Corp", year := some "2023" }

/-!
Refinement lemmas: away from the column-less empty frame each
exception-instrumented operation succeeds with the plain value, while the
unguarded growth path reproduces the KeyError of the source.
-/

/-- On a nonempty canonical table neither fallible access of the resolver can
fire: the fallible resolver equals the plain one there. -/
theorem get_account_valueE_ok (df : List Row) (hne : df ≠ []) :
    ∀ (ids : List String) (p : Period),
      get_account_valueE df ids p = Except.ok (get_account_value df ids p) := by
  intro ids p
  have hemp : df.isEmpty = false := by
    cases df with
    | nil => exact absurd rfl hne
    | cons a l => rfl
  induction ids with
  | nil => rfl
  | cons account_id rest ih =>
    by_cases h : df.any (accountMatches account_id)
    · rcases hh : (df.filter (accountMatches account_id)).head? with _ | r
      · rw [List.head?_eq_none_iff, List.filter_eq_nil_iff] at hh
        rw [List.any_eq_true] at h
        obtain ⟨x, hx, hpx⟩ := h
        exact absurd hpx (hh x hx)
      · simp [get_account_valueE, get_account_value, hemp, h, hh, ilocFirst, Except.map]
    · have hfil : df.filter (accountMatches account_id) = [] := by
        rw [List.filter_eq_nil_iff]
        intro a ha hpa
        exact h (List.any_eq_true.mpr ⟨a, ha, hpa⟩)
      simp [get_account_valueE, get_account_value, hemp, h, hfil, ih]

/-- The fallible stability-ratio computation succeeds on a nonempty table. -/
theorem calculate_stability_ratiosE_ok (df : List Row) (hne : df ≠ []) :
    calculate_stability_ratiosE df = Except.ok (calculate_stability_ratios df) := by
  simp [calculate_stability_ratiosE, calculate_stability_ratios, get_account_valueE_ok df hne,
    bind, Except.bind, pure, Except.pure]

/-- The fallible profitability-ratio computation succeeds on a nonempty table. -/
theorem calculate_profitability_ratiosE_ok (df : List Row) (hne : df ≠ []) :
    calculate_profitability_ratiosE df = Except.ok (calculate_profitability_ratios df) := by
  simp [calculate_profitability_ratiosE, calculate_profitability_ratios, get_account_valueE_ok df hne,
    bind, Except.bind, pure, Except.pure]

/-- The fallible activity-ratio computation succeeds on a nonempty table. -/
theorem calculate_activity_ratiosE_ok (df : List Row) (hne : df ≠ []) :
    calculate_activity_ratiosE df = Except.ok (calculate_activity_ratios df) := by
  simp [calculate_activity_ratiosE, calculate_activity_ratios, get_account_valueE_ok df hne,
    bind, Except.bind, pure, Except.pure]

/-- The fallible growth-rate computation succeeds when both tables are
nonempty; calculate_growth_rates has no df.empty guard, so this cannot be
strengthened to all tables. -/
theorem calculate_growth_ratesE_ok (df_current df_previous : List Row)
    (hc : df_current ≠ []) (hp : df_previous ≠ []) :
    calculate_growth_ratesE df_current df_previous =
      Except.ok (calculate_growth_rates df_current df_previous) := by
  simp [calculate_growth_ratesE, calculate_growth_rates, get_account_valueE_ok df_current hc,
    get_account_valueE_ok df_previous hp, bind, Except.bind, pure, Except.pure]

/-- The fallible growth-rate computation raises the KeyError of the source
when the current-period table is the column-less empty frame. -/
theorem calculate_growth_ratesE_err (df_previous : List Row) :
    calculate_growth_ratesE [] df_previous = Except.error "KeyError: 'account_id'" :=
  rfl

/-- The fallible all-ratios computation always succeeds. -/
theorem calculate_all_ratiosE_ok (statements : List RawLineItem) :
    calculate_all_ratiosE statements = Except.ok (calculate_all_ratios statements) := by
  by_cases h : (extract_financial_data statements).isEmpty
  · simp [calculate_all_ratiosE, calculate_all_ratios, h, pure, Except.pure]
  · have hne : extract_financial_data statements ≠ [] := by
      intro he
      rw [he] at h
      exact h rfl
    simp [calculate_all_ratiosE, calculate_all_ratios, h,
      calculate_stability_ratiosE_ok (extract_financial_data statements) hne,
      calculate_profitability_ratiosE_ok (extract_financial_data statements) hne,
      calculate_activity_ratiosE_ok (extract_financial_data statements) hne,
      bind, Except.bind, pure, Except.pure]

/-- The fallible comparison-loop body always succeeds. -/
theorem comparison_rowE_ok (data : CompanyData) :
    comparison_rowE data = Except.ok (comparison_row data) := by
  simp [comparison_rowE, comparison_row, calculate_all_ratiosE_ok,
    bind, Except.bind, pure, Except.pure]

/-- The fallible comparison-table construction always succeeds. -/
theorem create_comparison_tableE_ok (companies_data : List (String × CompanyData)) :
    create_comparison_tableE companies_data = Except.ok (create_comparison_table companies_data) := by
  induction companies_data with
  | nil => rfl
  | cons kv rest ih =>
    simp [create_comparison_tableE, create_comparison_table, comparison_rowE_ok, ih,
      bind, Except.bind, pure, Except.pure]

/-!
Claim theorems.
-/

/-- Claim C1: on any canonical table whose relevant denominators resolve to
strictly positive values, the ratio engine computes current_ratio, debt_to_equity
and equity_ratio as the stated quotients times 100, the three margins, roa and roe
as the stated quotients times 100, and asset_turnover as revenue over total assets
not scaled by 100, each rounded to two decimal places. -/
theorem ratio_engine_formulas (df : List Row)
    (hcl : 0 < get_account_value df (aliasesOf "current_liabilities") Period.thstrm)
    (hte : 0 < get_account_value df (aliasesOf "total_equity") Period.thstrm)
    (hta : 0 < get_account_value df (aliasesOf "total_assets") Period.thstrm)
    (hrev : 0 < get_account_value df (aliasesOf "revenue") Period.thstrm) :
    calculate_stability_ratios df =
      [("current_ratio", round2 (get_account_value df (aliasesOf "current_assets") Period.thstrm / get_account_value df (aliasesOf "current_liabilities") Period.thstrm * 100)),
       ("debt_to_equity", round2 (get_account_value df (aliasesOf "total_liabilities") Period.thstrm / get_account_value df (aliasesOf "total_equity") Period.thstrm * 100)),
       ("equity_ratio", round2 (get_account_value df (aliasesOf "total_equity") Period.thstrm / get_account_value df (aliasesOf "total_assets") Period.thstrm * 100))] ∧
    calculate_profitability_ratios df =
      [("gross_margin", round2 (get_account_value df (aliasesOf "gross_profit") Period.thstrm / get_account_value df (aliasesOf "revenue") Period.thstrm * 100)),
       ("operating_margin", round2 (get_account_value df (aliasesOf "operating_profit") Period.thstrm / get_account_value df (aliasesOf "revenue") Period.thstrm * 100)),
       ("net_margin", round2 (get_account_value df (aliasesOf "net_income") Period.thstrm / get_account_value df (aliasesOf "revenue") Period.thstrm * 100)),
       ("roa", round2 (get_account_value df (aliasesOf "net_income") Period.thstrm / get_account_value df (aliasesOf "total_assets") Period.thstrm * 100)),
       ("roe", round2 (get_account_value df (aliasesOf "net_income") Period.thstrm / get_account_value df (aliasesOf "total_equity") Period.thstrm * 100))] ∧
    calculate_activity_ratios df =
      [("asset_turnover", round2 (get_account_value df (aliasesOf "revenue") Period.thstrm / get_account_value df (aliasesOf "total_assets") Period.thstrm))] := by
  refine ⟨?_, ?_, ?_⟩
  · simp [calculate_stability_ratios, hcl, hte, hta]
  · simp [calculate_profitability_ratios, hrev, hta, hte]
  · simp [calculate_activity_ratios, hta]

/-- Witness for C1 on the repository test suite filing: in particular
operating_margin = 10, net_margin = 8, roa = 6, roe = 10, current_ratio = 200,
debt_to_equity = 66.67, equity_ratio = 60, asset_turnover = 0.75. -/
theorem ratio_engine_formulas_witness :
    0 < get_account_value sampleTable (aliasesOf "current_liabilities") Period.thstrm ∧
    0 < get_account_value sampleTable (aliasesOf "total_equity") Period.thstrm ∧
    0 < get_account_value sampleTable (aliasesOf "total_assets") Period.thstrm ∧
    0 < get_account_value sampleTable (aliasesOf "revenue") Period.thstrm ∧
    calculate_stability_ratios sampleTable =
      [("current_ratio", 200), ("debt_to_equity", 6667/100), ("equity_ratio", 60)] ∧
    calculate_profitability_ratios sampleTable =
      [("gross_margin", 40), ("operating_margin", 10), ("net_margin", 8), ("roa", 6), ("roe", 10)] ∧
    calculate_activity_ratios sampleTable = [("asset_turnover", 3/4)] := by
  have h := ratio_engine_formulas sampleTable (by decide) (by decide) (by decide) (by decide)
  have hca : get_account_value sampleTable (aliasesOf "current_assets") Period.thstrm = 1000000 := by decide
  have hcl : get_account_value sampleTable (aliasesOf "current_liabilities") Period.thstrm = 500000 := by decide
  have hta : get_account_value sampleTable (aliasesOf "total_assets") Period.thstrm = 2000000 := by decide
  have htl : get_account_value sampleTable (aliasesOf "total_liabilities") Period.thstrm = 800000 := by decide
  have hte : get_account_value sampleTable (aliasesOf "total_equity") Period.thstrm = 1200000 := by decide
  have hrev : get_account_value sampleTable (aliasesOf "revenue") Period.thstrm = 1500000 := by decide
  have hgp : get_account_value sampleTable (aliasesOf "gross_profit") Period.thstrm = 600000 := by decide
  have hop : get_account_value sampleTable (aliasesOf "operating_profit") Period.thstrm = 150000 := by decide
  have hni : get_account_value sampleTable (aliasesOf "net_income") Period.thstrm = 120000 := by decide
  refine ⟨by decide, by decide, by decide, by decide, ?_, ?_, ?_⟩
  · rw [h.1, hca, hcl, hta, htl, hte]
    norm_num [round2, round_eq, Int.floor_eq_iff]
  · rw [h.2.1, hrev, hgp, hop, hni, hta, hte]
    norm_num [round2, round_eq, Int.floor_eq_iff]
  · rw [h.2.2, hrev, hta]
    norm_num [round2, round_eq, Int.floor_eq_iff]

/-- Claim C2: whenever a denominator metric resolves to 0 the corresponding
ratio is the value 0, uniformly across all stability, profitability and
activity ratios. -/
theorem zero_denominator_policy (df : List Row) :
    (get_account_value df (aliasesOf "current_liabilities") Period.thstrm = 0 →
      (calculate_stability_ratios df).lookup "current_ratio" = some 0) ∧
    (get_account_value df (aliasesOf "total_equity") Period.thstrm = 0 →
      (calculate_stability_ratios df).lookup "debt_to_equity" = some 0) ∧
    (get_account_value df (aliasesOf "total_assets") Period.thstrm = 0 →
      (calculate_stability_ratios df).lookup "equity_ratio" = some 0) ∧
    (get_account_value df (aliasesOf "revenue") Period.thstrm = 0 →
      (calculate_profitability_ratios df).lookup "gross_margin" = some 0) ∧
    (get_account_value df (aliasesOf "revenue") Period.thstrm = 0 →
      (calculate_profitability_ratios df).lookup "operating_margin" = some 0) ∧
    (get_account_value df (aliasesOf "revenue") Period.thstrm = 0 →
      (calculate_profitability_ratios df).lookup "net_margin" = some 0) ∧
    (get_account_value df (aliasesOf "total_assets") Period.thstrm = 0 →
      (calculate_profitability_ratios df).lookup "roa" = some 0) ∧
    (get_account_value df (aliasesOf "total_equity") Period.thstrm = 0 →
      (calculate_profitability_ratios df).lookup "roe" = some 0) ∧
    (get_account_value df (aliasesOf "total_assets") Period.thstrm = 0 →
      (calculate_activity_ratios df).lookup "asset_turnover" = some 0) := by
  refine ⟨fun h => ?_, fun h => ?_, fun h => ?_, fun h => ?_, fun h => ?_, fun h => ?_,
    fun h => ?_, fun h => ?_, fun h => ?_⟩ <;>
    simp [calculate_stability_ratios, calculate_profitability_ratios, calculate_activity_ratios,
      List.lookup, h]

/-- Witness for C2 on a filing with zero current liabilities, equity and
assets: in particular current_ratio is 0, with no exception and no infinity. -/
theorem zero_denominator_policy_witness :
    get_account_value zeroDenomTable (aliasesOf "current_liabilities") Period.thstrm = 0 ∧
    (calculate_stability_ratios zeroDenomTable).lookup "current_ratio" = some 0 ∧
    (calculate_profitability_ratios zeroDenomTable).lookup "roe" = some 0 ∧
    (calculate_activity_ratios zeroDenomTable).lookup "asset_turnover" = some 0 := by
  have h := zero_denominator_policy zeroDenomTable
  exact ⟨by decide, h.1 (by decide), h.2.2.2.2.2.2.2.1 (by decide), h.2.2.2.2.2.2.2.2 (by decide)⟩

/-- Claim C3: normalization coerces each amount field by stripping commas and
parsing, substitutes 0 for malformed, null or absent values, keeps rows in
input order, and maps the string 1,000,000 to the float 1000000. -/
theorem normalizer_coercion :
    (∀ statements : List RawLineItem, extract_financial_data statements = statements.map coerceRow) ∧
    coerce_amount (RawVal.str "1,000,000") = 1000000 ∧
    (∀ s : String, parseAmount (stripCommas s) = none → coerce_amount (RawVal.str s) = 0) ∧
    coerce_amount RawVal.null = 0 ∧
    coerce_amount RawVal.absent = 0 := by
  refine ⟨?_, by decide, ?_, rfl, rfl⟩
  · intro statements
    cases statements with
    | nil => rfl
    | cons a rest => rfl
  · intro s h
    simp [coerce_amount, h]

/-- Witness for C3: a malformed amount string is coerced to 0. -/
theorem normalizer_coercion_witness :
    parseAmount (stripCommas "N/A") = none ∧ coerce_amount (RawVal.str "N/A") = 0 :=
  ⟨by decide, normalizer_coercion.2.2.1 "N/A" (by decide)⟩

/-- Claim C4, corrected: the resolver walks the alias list in priority order,
matches on the whitespace-trimmed account id, lets the first masked row in
table order win, and returns 0 on an empty alias list; on a nonempty table it
returns 0 when no alias matches any row, but on the column-less table built
from an empty record list a nonempty alias list makes the source raise
KeyError at the df column access instead of returning 0. -/
theorem resolver_first_match :
    (∀ (df : List Row) (p : Period), get_account_valueE df [] p = Except.ok 0) ∧
    (∀ (df : List Row) (p : Period) (account_id : String) (rest : List String) (r : Row),
      (df.filter (accountMatches account_id)).head? = some r →
      get_account_valueE df (account_id :: rest) p = Except.ok (r.getPeriod p)) ∧
    (∀ (df : List Row) (p : Period) (account_id : String) (rest : List String),
      df ≠ [] → (df.filter (accountMatches account_id)).head? = none →
      get_account_valueE df (account_id :: rest) p = get_account_valueE df rest p) ∧
    (∀ (df : List Row) (p : Period) (ids : List String),
      df ≠ [] → (∀ account_id ∈ ids, df.filter (accountMatches account_id) = []) →
      get_account_valueE df ids p = Except.ok 0) ∧
    (∀ (account_id : String) (r : Row) (rest : List Row), accountMatches account_id r = true →
      ((r :: rest).filter (accountMatches account_id)).head? = some r) ∧
    (∀ (p : Period) (account_id : String) (rest : List String),
      get_account_valueE [] (account_id :: rest) p = Except.error "KeyError: 'account_id'") := by
  refine ⟨fun df p => rfl, ?_, ?_, ?_, ?_, fun p account_id rest => rfl⟩
  · intro df p account_id rest r hh
    obtain ⟨ys, hys⟩ := List.head?_eq_some_iff.mp hh
    have hr : r ∈ df.filter (accountMatches account_id) := by
      rw [hys]
      exact List.mem_cons_self r ys
    rw [List.mem_filter] at hr
    have hany : df.any (accountMatches account_id) = true :=
      List.any_eq_true.mpr ⟨r, hr.1, hr.2⟩
    have hemp : df.isEmpty = false := by
      cases df with
      | nil => exact absurd hr.1 (List.not_mem_nil r)
      | cons a l => rfl
    simp [get_account_valueE, hemp, hany, hh, ilocFirst, Except.map]
  · intro df p account_id rest hne hh
    have hemp : df.isEmpty = false := by
      cases df with
      | nil => exact absurd rfl hne
      | cons a l => rfl
    have hfalse : df.any (accountMatches account_id) = false := by
      rw [List.head?_eq_none_iff, List.filter_eq_nil_iff] at hh
      exact List.any_eq_false.mpr hh
    simp [get_account_valueE, hemp, hfalse]
  · intro df p ids hne h
    have hemp : df.isEmpty = false := by
      cases df with
      | nil => exact absurd rfl hne
      | cons a l => rfl
    induction ids with
    | nil => rfl
    | cons a rest ih =>
      have ha := h a (List.mem_cons_self a rest)
      have hfalse : df.any (accountMatches a) = false :=
        List.any_eq_false.mpr (List.filter_eq_nil_iff.mp ha)
      have hstep : get_account_valueE df (a :: rest) p = get_account_valueE df rest p := by
        simp [get_account_valueE, hemp, hfalse]
      rw [hstep]
      exact ih (fun account_id hid => h account_id (List.mem_cons_of_mem a hid))
  · intro account_id r rest h
    simp [List.filter_cons, h]

/-- Witness for C4: with two rows sharing the trimmed account id, the first
occurrence in table order wins, and the empty alias list yields 0. -/
theorem resolver_first_match_witness :
    accountMatches "ifrs-full_Assets" dupRowA = true ∧
    get_account_valueE [dupRowA, dupRowB] ["ifrs-full_Assets"] Period.thstrm = Except.ok 7 ∧
    get_account_valueE [dupRowA, dupRowB] [] Period.thstrm = Except.ok 0 := by
  have h5 := resolver_first_match.2.2.2.2.1 "ifrs-full_Assets" dupRowA [dupRowB] (by decide)
  have h2 := resolver_first_match.2.1 [dupRowA, dupRowB] Period.thstrm "ifrs-full_Assets" [] dupRowA h5
  refine ⟨by decide, ?_, resolver_first_match.1 [dupRowA, dupRowB] Period.thstrm⟩
  rw [h2]
  rfl

/-- Counterexample for C4 as stated: on the canonical table built from the
empty record list, resolving the non-matching alias of the spec example
raises KeyError instead of returning 0. -/
theorem resolver_keyerror_on_empty_table :
    get_account_valueE (extract_financial_data []) ["nonexistent_id"] Period.thstrm =
      Except.error "KeyError: 'account_id'" ∧
    (Except.error "KeyError: 'account_id'" : Except String ℚ) ≠ Except.ok 0 :=
  ⟨rfl, fun h => Except.noConfusion h⟩

/-- Claim C5, corrected: normalization, calculate_all_ratios and the
comparison builder never raise on any well-shaped input, and the resolver and
calculate_growth_rates never raise when every table involved is nonempty; but
calculate_growth_rates has no df.empty guard, so on the column-less table
built from an empty line-item list it raises KeyError rather than returning
a value. -/
theorem core_operations_total :
    (∀ statements : List RawLineItem, extract_financial_data statements = statements.map coerceRow) ∧
    (∀ df : List Row, df ≠ [] → ∀ (ids : List String) (p : Period),
      get_account_valueE df ids p = Except.ok (get_account_value df ids p)) ∧
    (∀ (df : List Row) (p : Period), get_account_valueE df [] p = Except.ok 0) ∧
    (∀ statements : List RawLineItem,
      calculate_all_ratiosE statements = Except.ok (calculate_all_ratios statements)) ∧
    (∀ df_current df_previous : List Row, df_current ≠ [] → df_previous ≠ [] →
      calculate_growth_ratesE df_current df_previous =
        Except.ok (calculate_growth_rates df_current df_previous)) ∧
    (∀ df_previous : List Row,
      calculate_growth_ratesE [] df_previous = Except.error "KeyError: 'account_id'") ∧
    (∀ companies_data : List (String × CompanyData),
      create_comparison_tableE companies_data = Except.ok (create_comparison_table companies_data)) := by
  refine ⟨?_, get_account_valueE_ok, fun df p => rfl, calculate_all_ratiosE_ok,
    calculate_growth_ratesE_ok, calculate_growth_ratesE_err, create_comparison_tableE_ok⟩
  intro statements
  cases statements with
  | nil => rfl
  | cons a rest => rfl

/-- Witness for C5: on concrete nonempty tables the resolver and the growth
computation succeed with the plain values. -/
theorem core_operations_total_witness :
    ([dupRowA] : List Row) ≠ [] ∧
    get_account_valueE [dupRowA] (aliasesOf "revenue") Period.thstrm =
      Except.ok (get_account_value [dupRowA] (aliasesOf "revenue") Period.thstrm) ∧
    calculate_growth_ratesE [dupRowA] [dupRowB] =
      Except.ok (calculate_growth_rates [dupRowA] [dupRowB]) := by
  refine ⟨by decide, ?_, ?_⟩
  · exact core_operations_total.2.1 [dupRowA] (by decide) (aliasesOf "revenue") Period.thstrm
  · exact core_operations_total.2.2.2.2.1 [dupRowA] [dupRowB] (by decide) (by decide)

/-- Counterexample for C5 as stated: calculate_growth_rates applied to the
tables of two empty line-item lists raises KeyError instead of returning. -/
theorem growth_keyerror_on_empty_input :
    calculate_growth_ratesE (extract_financial_data []) (extract_financial_data []) =
      Except.error "KeyError: 'account_id'" ∧
    (Except.error "KeyError: 'account_id'" : Except String (List (String × ℚ))) ≠
      Except.ok (calculate_growth_rates (extract_financial_data []) (extract_financial_data [])) :=
  ⟨rfl, fun h => Except.noConfusion h⟩

/-- Claim C6: each growth metric is the rounded relative change times 100 when
the prior-period value is strictly positive, and 0 whenever the prior-period
value is less than or equal to 0, regardless of the current value. -/
theorem growth_rate_policy (df_current df_previous : List Row) :
    ((0 < get_account_value df_previous (aliasesOf "revenue") Period.thstrm →
      (calculate_growth_rates df_current df_previous).lookup "revenue_growth" =
        some (round2 ((get_account_value df_current (aliasesOf "revenue") Period.thstrm - get_account_value df_previous (aliasesOf "revenue") Period.thstrm) / get_account_value df_previous (aliasesOf "revenue") Period.thstrm * 100))) ∧
     (get_account_value df_previous (aliasesOf "revenue") Period.thstrm ≤ 0 →
      (calculate_growth_rates df_current df_previous).lookup "revenue_growth" = some 0)) ∧
    ((0 < get_account_value df_previous (aliasesOf "net_income") Period.thstrm →
      (calculate_growth_rates df_current df_previous).lookup "net_income_growth" =
        some (round2 ((get_account_value df_current (aliasesOf "net_income") Period.thstrm - get_account_value df_previous (aliasesOf "net_income") Period.thstrm) / get_account_value df_previous (aliasesOf "net_income") Period.thstrm * 100))) ∧
     (get_account_value df_previous (aliasesOf "net_income") Period.thstrm ≤ 0 →
      (calculate_growth_rates df_current df_previous).lookup "net_income_growth" = some 0)) ∧
    ((0 < get_account_value df_previous (aliasesOf "total_assets") Period.thstrm →
      (calculate_growth_rates df_current df_previous).lookup "asset_growth" =
        some (round2 ((get_account_value df_current (aliasesOf "total_assets") Period.thstrm - get_account_value df_previous (aliasesOf "total_assets") Period.thstrm) / get_account_value df_previous (aliasesOf "total_assets") Period.thstrm * 100))) ∧
     (get_account_value df_previous (aliasesOf "total_assets") Period.thstrm ≤ 0 →
      (calculate_growth_rates df_current df_previous).lookup "asset_growth" = some 0)) := by
  constructor
  · exact ⟨fun hpos => by simp [calculate_growth_rates, List.lookup, hpos],
      fun hnp => by simp [calculate_growth_rates, List.lookup, hnp]⟩
  constructor
  · exact ⟨fun hpos => by simp [calculate_growth_rates, List.lookup, hpos],
      fun hnp => by simp [calculate_growth_rates, List.lookup, hnp]⟩
  · exact ⟨fun hpos => by simp [calculate_growth_rates, List.lookup, hpos],
      fun hnp => by simp [calculate_growth_rates, List.lookup, hnp]⟩

/-- Witness for C6: a negative prior revenue and an absent prior asset line
give growth 0 despite positive current values, while a positive prior net
income gives the rounded relative change, here 10. -/
theorem growth_rate_policy_witness :
    get_account_value growthPrevTable (aliasesOf "revenue") Period.thstrm ≤ 0 ∧
    (calculate_growth_rates growthCurTable growthPrevTable).lookup "revenue_growth" = some 0 ∧
    0 < get_account_value growthPrevTable (aliasesOf "net_income") Period.thstrm ∧
    (calculate_growth_rates growthCurTable growthPrevTable).lookup "net_income_growth" = some 10 ∧
    get_account_value growthPrevTable (aliasesOf "total_assets") Period.thstrm ≤ 0 ∧
    (calculate_growth_rates growthCurTable growthPrevTable).lookup "asset_growth" = some 0 := by
  have h := growth_rate_policy growthCurTable growthPrevTable
  have hc : get_account_value growthCurTable (aliasesOf "net_income") Period.thstrm = 1100 := by decide
  have hp : get_account_value growthPrevTable (aliasesOf "net_income") Period.thstrm = 1000 := by decide
  refine ⟨by decide, h.1.2 (by decide), by decide, ?_, by decide, h.2.2.2 (by decide)⟩
  rw [h.2.1.1 (by decide), hc, hp]
  norm_num [round2, round_eq, Int.floor_eq_iff]

/-- Claim C7: calculate_all_ratios on the empty line-item list returns the
three empty groups, and normalization of the empty input short-circuits to
the empty table before any row is built. -/
theorem all_ratios_empty_input :
    calculate_all_ratios [] = { stability := [], profitability := [], activity := [] } ∧
    extract_financial_data [] = [] :=
  ⟨rfl, rfl⟩

/-- Claim C8: the comparison table has exactly one row per entity key in
iteration order, the i-th row is determined by the i-th entity alone, every
ratio column defaults to 0 when its group lacks the key, and each row carries
exactly the fixed display column set. -/
theorem comparison_table_shape :
    (∀ companies_data : List (String × CompanyData),
      (create_comparison_table companies_data).length = companies_data.length) ∧
    (∀ (companies_data : List (String × CompanyData)) (i : ℕ)
        (h1 : i < companies_data.length) (h2 : i < (create_comparison_table companies_data).length),
      (create_comparison_table companies_data).get ⟨i, h2⟩ =
        comparison_row (companies_data.get ⟨i, h1⟩).2) ∧
    (∀ (g : List (String × ℚ)) (k : String), g.lookup k = none → dictGet g k 0 = 0) ∧
    (∀ data : CompanyData, comparison_row data =
      { company_name := data.company_name.getD ""
        year := data.year.getD ""
        current_ratio := dictGet (calculate_all_ratios (data.statements.getD [])).stability "current_ratio" 0
        debt_to_equity := dictGet (calculate_all_ratios (data.statements.getD [])).stability "debt_to_equity" 0
        equity_ratio := dictGet (calculate_all_ratios (data.statements.getD [])).stability "equity_ratio" 0
        roe := dictGet (calculate_all_ratios (data.statements.getD [])).profitability "roe" 0
        roa := dictGet (calculate_all_ratios (data.statements.getD [])).profitability "roa" 0
        operating_margin := dictGet (calculate_all_ratios (data.statements.getD [])).profitability "operating_margin" 0
        net_margin := dictGet (calculate_all_ratios (data.statements.getD [])).profitability "net_margin" 0
        asset_turnover := dictGet (calculate_all_ratios (data.statements.getD [])).activity "asset_turnover" 0 }) := by
  refine ⟨?_, ?_, ?_, fun data => rfl⟩
  · intro companies_data
    simp [create_comparison_table]
  · intro companies_data i h1 h2
    simp [create_comparison_table, List.get_eq_getElem, List.getElem_map]
  · intro g k h
    simp [dictGet, h]

/-- Witness for C8 on a two-entity mapping: two rows, the first determined by
the first entity, and a missing key defaulting to 0. -/
theorem comparison_table_shape_witness :
    (create_comparison_table [("a", namedEntity), ("b", bareEntity)]).length = 2 ∧
    (create_comparison_table [("a", namedEntity), ("b", bareEntity)]).get ⟨0, by decide⟩ =
      comparison_row namedEntity ∧
    ([] : List (String × ℚ)).lookup "current_ratio" = none ∧
    dictGet [] "current_ratio" 0 = 0 := by
  refine ⟨comparison_table_shape.1 [("a", namedEntity), ("b", bareEntity)], ?_, rfl,
    comparison_table_shape.2.2.1 [] "current_ratio" rfl⟩
  exact comparison_table_shape.2.1 [("a", namedEntity), ("b", bareEntity)] 0 (by decide) (by decide)

/-- Claim C9: resolving the aliases of a canonical metric name the registry
does not recognize returns the empty list, never an error; a recognized name
returns its ordered alias list. -/
theorem alias_registry_unrecognized :
    (∀ canonical_name : String, account_mapping.lookup canonical_name = none →
      resolve_aliases canonical_name = []) ∧
    resolve_aliases "current_assets" = ["ifrs-full_CurrentAssets", "ifrs_CurrentAssets"] := by
  constructor
  · intro canonical_name h
    simp [resolve_aliases, h]
  · rfl

/-- Witness for C9: an unrecognized canonical name yields the empty list. -/
theorem alias_registry_unrecognized_witness :
    account_mapping.lookup "ebitda" = none ∧ resolve_aliases "ebitda" = [] :=
  ⟨by decide, alias_registry_unrecognized.1 "ebitda" (by decide)⟩

/-- Claim C10: an entity record missing the statements, display-name and
period-label keys still produces exactly one row, with empty-string name and
label and all ratio columns 0, and the table keeps one row per entity. -/
theorem entity_missing_keys :
    (∀ data : CompanyData,
      data.statements = none → data.company_name = none → data.year = none →
      comparison_row data =
        { company_name := "", year := "", current_ratio := 0, debt_to_equity := 0,
          equity_ratio := 0, roe := 0, roa := 0, operating_margin := 0, net_margin := 0,
          asset_turnover := 0 }) ∧
    (∀ companies_data : List (String × CompanyData),
      (create_comparison_table companies_data).length = companies_data.length) := by
  constructor
  · intro data h1 h2 h3
    simp [comparison_row, h1, h2, h3, calculate_all_ratios, extract_financial_data, dictGet]
  · intro companies_data
    simp [create_comparison_table]

/-- Witness for C10: the bare entity record produces the all-default row. -/
theorem entity_missing_keys_witness :
    bareEntity.statements = none ∧
    comparison_row bareEntity =
      { company_name := "", year := "", current_ratio := 0, debt_to_equity := 0,
        equity_ratio := 0, roe := 0, roa := 0, operating_margin := 0, net_margin := 0,
        asset_turnover := 0 } :=
  ⟨rfl, entity_missing_keys.1 bareEntity rfl rfl rfl⟩

end DartCalc
